import Mathlib

/-!
Shallow embedding of the planning-service optimization core
(`src/backend/planning-service`): confidence scoring
(`utils/calculation_utils.py`), window generation and merging, the
collection-plan state machine (`models/collection_plan.py`), the EARTH-n
client retry behaviour (`services/earthn_service.py`) and the optimization
orchestration loop (`services/optimization_service.py`).

Modelling conventions:
* Python `float` values are modelled as exact rationals (`ℚ`); timestamps
  (`datetime`) are modelled as integer seconds (`ℤ`), with differences
  standing for `.total_seconds()`.
* Python dictionaries of numeric parameters are modelled as association
  lists `List (String × ℚ)` looked up at the first matching key.
* Raised exceptions are modelled by `Except PyErr`; the constructors of
  `PyErr` mirror the Python exception classes that actually occur.
* In-place mutation of a plan is modelled by explicit state passing: a
  mutating call returns the outcome together with the plan state after
  the call.
-/

/-- Python exception classes raised (or mentioned) by the planning service.
`retryError` models `tenacity.RetryError`, which wraps the final attempt's
exception once the stop condition of a `@retry` decorator is reached. -/
inductive PyErr where
  | valueError (msg : String)
  | validationError (msg : String)
  | runtimeError (msg : String)
  | keyError (key : String)
  | zeroDivisionError
  | httpStatusError (code : Nat)
  | timeoutError (msg : String)
  | retryError (last : PyErr)
  deriving Repr, DecidableEq

/-- Message rendering used by `handle_calculation_errors`
(`str(e)` on the wrapped exception). -/
def PyErr.message : PyErr → String
  | .valueError m => m
  | .validationError m => m
  | .runtimeError m => m
  | .keyError k => "'" ++ k ++ "'"
  | .zeroDivisionError => "division by zero"
  | .httpStatusError c => toString c
  | .timeoutError m => m
  | .retryError _ => "RetryError"

deriving instance DecidableEq for Except

/-- First-match lookup in an association list, the model of `dict[k]` /
`dict.get(k)` for string-keyed dictionaries of floats. -/
def lookupQ : List (String × ℚ) → String → Option ℚ
  | [], _ => none
  | p :: ps, k => if p.1 = k then some p.2 else lookupQ ps k

/-- `CONFIDENCE_WEIGHT_FACTORS` from `calculation_utils.py`. -/
def defaultWeights : List (String × ℚ) :=
  [("temporal", 4/10), ("spatial", 3/10), ("spectral", 2/10), ("radiometric", 1/10)]

/-- The required parameter keys (`CONFIDENCE_WEIGHT_FACTORS.keys()`). -/
def requiredParams : List String :=
  ["temporal", "spatial", "spectral", "radiometric"]

/-- `np.isclose(a, b, rtol=1e-10)`: numpy keeps its default absolute
tolerance `atol = 1e-8`, so the test is `|a - b| ≤ 1e-8 + 1e-10 * |b|`. -/
def npIsClose (a b : ℚ) : Bool :=
  decide (|a - b| ≤ 1/100000000 + (1/10000000000) * |b|)

/-- `np.clip(x, 0, 1)`. -/
def clip01 (x : ℚ) : ℚ := min 1 (max 0 x)

/-- The weighted-score loop `sum(weights[k] * clipped_params[k] for k in
required_params)`.  A key absent from `weights` raises `KeyError` exactly as
`weights[k]` does in Python (the parameter lookup cannot fail once the
missing-parameter guard has passed, but the `KeyError` branch is kept for
it as well). -/
def weightedScore (weights params : List (String × ℚ)) : List String → Except PyErr ℚ
  | [] => .ok 0
  | k :: ks =>
    match lookupQ weights k with
    | none => .error (.keyError k)
    | some w =>
      match lookupQ params k with
      | none => .error (.keyError k)
      | some p =>
        match weightedScore weights params ks with
        | .error e => .error e
        | .ok rest => .ok (w * clip01 p + rest)

/-- The final clip-and-snap of `calculate_confidence_score`:
`np.clip(score, 0, 1)` followed by the `np.isclose` snaps to exact 0.0/1.0. -/
def snapClip (x : ℚ) : ℚ :=
  if npIsClose (clip01 x) 0 then 0
  else if npIsClose (clip01 x) 1 then 1
  else clip01 x

/-- Body of `calculate_confidence_score` (before the
`handle_calculation_errors` decorator is applied): missing-parameter guard,
Python-truthiness choice of weights (an empty custom dict falls back to the
defaults), weight-sum check, weighting of clipped parameters, final clip
and snap.  The missing-key set of the Python error message is rendered in
the fixed order of `requiredParams`. -/
def calculateConfidenceScoreRaw
    (params : List (String × ℚ)) (customWeights : Option (List (String × ℚ))) :
    Except PyErr ℚ :=
  let missing := requiredParams.filter (fun k => (lookupQ params k).isNone)
  if missing.isEmpty = false then
    .error (.valueError ("Missing required parameters: " ++ String.intercalate ", " missing))
  else
    let weights :=
      match customWeights with
      | none => defaultWeights
      | some w => if w.isEmpty then defaultWeights else w
    if npIsClose ((weights.map (fun p => p.2)).sum) 1 = false then
      .error (.valueError "Weight factors must sum to 1.0")
    else
      match weightedScore weights params requiredParams with
      | .error e => .error e
      | .ok s => .ok (snapClip s)

/-- The `handle_calculation_errors` decorator: any exception is re-raised
as `RuntimeError("Calculation error: " + str(e))`. -/
def handleCalculationErrors (r : Except PyErr ℚ) : Except PyErr ℚ :=
  match r with
  | .ok v => .ok v
  | .error e => .error (.runtimeError ("Calculation error: " ++ e.message))

/-- `calculate_confidence_score` as callers see it (decorated;
`validate_numerical_inputs` is the identity in the rational model since
`ℚ` has no NaN/Inf values). -/
def calculateConfidenceScore
    (params : List (String × ℚ)) (customWeights : Option (List (String × ℚ))) :
    Except PyErr ℚ :=
  handleCalculationErrors (calculateConfidenceScoreRaw params customWeights)

example :
    calculateConfidenceScore
      [("temporal", 9/10), ("spatial", 8/10), ("spectral", 7/10), ("radiometric", 9/10)]
      none = .ok (83/100) := by
  norm_num +decide [calculateConfidenceScore, calculateConfidenceScoreRaw,
    handleCalculationErrors, weightedScore, lookupQ, requiredParams, defaultWeights,
    npIsClose, snapClip, clip01, abs_le]

example :
    calculateConfidenceScore
      [("temporal", 1), ("spatial", 1), ("spectral", 1), ("radiometric", 1)]
      none = .ok 1 := by
  norm_num +decide [calculateConfidenceScore, calculateConfidenceScoreRaw,
    handleCalculationErrors, weightedScore, lookupQ, requiredParams, defaultWeights,
    npIsClose, snapClip, clip01, abs_le]

example :
    calculateConfidenceScore
      [("temporal", 1/1000000000), ("spatial", 1/1000000000),
       ("spectral", 1/1000000000), ("radiometric", 1/1000000000)]
      none = .ok 0 := by
  norm_num +decide [calculateConfidenceScore, calculateConfidenceScoreRaw,
    handleCalculationErrors, weightedScore, lookupQ, requiredParams, defaultWeights,
    npIsClose, snapClip, clip01, abs_le]

example :
    calculateConfidenceScore [("temporal", 1)] none =
      .error (.runtimeError
        "Calculation error: Missing required parameters: spatial, spectral, radiometric") := by
  norm_num +decide [calculateConfidenceScore, calculateConfidenceScoreRaw,
    handleCalculationErrors, PyErr.message, lookupQ, requiredParams,
    String.intercalate]

/-! ### Facts about the clip-and-snap postprocessing -/

theorem npIsClose_iff (a b : ℚ) :
    npIsClose a b = true ↔ |a - b| ≤ 1/100000000 + (1/10000000000) * |b| := by
  simp [npIsClose]

theorem clip01_nonneg (x : ℚ) : 0 ≤ clip01 x := by
  unfold clip01
  exact le_min (by norm_num) (le_max_left 0 x)

theorem clip01_le_one (x : ℚ) : clip01 x ≤ 1 := min_le_left 1 _

theorem clip01_of_mem (x : ℚ) (h0 : 0 ≤ x) (h1 : x ≤ 1) : clip01 x = x := by
  unfold clip01
  rw [max_eq_right h0, min_eq_right h1]

theorem snapClip_nonneg (x : ℚ) : 0 ≤ snapClip x := by
  unfold snapClip
  split_ifs
  · norm_num
  · norm_num
  · exact clip01_nonneg x

theorem snapClip_le_one (x : ℚ) : snapClip x ≤ 1 := by
  unfold snapClip
  split_ifs
  · norm_num
  · norm_num
  · exact clip01_le_one x

theorem snapClip_of_between (x : ℚ)
    (h1 : 1/100000000 < x) (h2 : x < 1 - (1/100000000 + 1/10000000000)) :
    snapClip x = x := by
  have h0 : (0:ℚ) ≤ x := le_of_lt (lt_trans (by norm_num) h1)
  have hx1 : x ≤ 1 := le_of_lt (lt_trans h2 (by norm_num))
  have hc : clip01 x = x := clip01_of_mem x h0 hx1
  unfold snapClip
  rw [hc, if_neg, if_neg]
  · rw [npIsClose_iff]
    rw [abs_one]
    intro hle
    rw [abs_of_nonpos (by linarith)] at hle
    linarith
  · rw [npIsClose_iff]
    intro hle
    rw [abs_zero, mul_zero, add_zero, sub_zero, abs_of_nonneg h0] at hle
    linarith

theorem snapClip_near_one (x : ℚ) (h : |x - 1| ≤ 1/10000000000) : snapClip x = 1 := by
  rw [abs_le] at h
  rcases le_or_lt x 1 with hx1 | hx1
  · have h0 : (0:ℚ) ≤ x := by linarith [h.1]
    have hc : clip01 x = x := clip01_of_mem x h0 hx1
    unfold snapClip
    rw [hc, if_neg, if_pos]
    · rw [npIsClose_iff, abs_one, abs_le]
      constructor <;> linarith [h.1, h.2]
    · rw [npIsClose_iff]
      intro hle
      rw [abs_zero, mul_zero, add_zero, sub_zero, abs_of_nonneg h0] at hle
      linarith [h.1]
  · have hc : clip01 x = 1 := by
      unfold clip01
      rw [max_eq_right (by linarith), min_eq_left (by linarith)]
    unfold snapClip
    rw [hc, if_neg, if_pos]
    · rw [npIsClose_iff]
      norm_num
    · rw [npIsClose_iff]
      norm_num

theorem snapClip_zero : snapClip 0 = 0 := by
  have hc : clip01 (0:ℚ) = 0 := clip01_of_mem 0 le_rfl (by norm_num)
  unfold snapClip
  rw [hc, if_pos]
  rw [npIsClose_iff]
  norm_num

/-- The exact pre-clip weighted sum over the four dimensions. -/
def weightedSum4 (wt wsw wsp wr pt ps psp pr : ℚ) : ℚ :=
  wt * pt + wsw * ps + wsp * psp + wr * pr

/-- Evaluation of `calculate_confidence_score` on a parameter map holding
all four required keys and a custom weight map holding them too. -/
theorem calculateConfidenceScore_eval
    (params weights : List (String × ℚ)) (pt ps psp pr wt wsw wsp wr : ℚ)
    (hp1 : lookupQ params "temporal" = some pt)
    (hp2 : lookupQ params "spatial" = some ps)
    (hp3 : lookupQ params "spectral" = some psp)
    (hp4 : lookupQ params "radiometric" = some pr)
    (hw1 : lookupQ weights "temporal" = some wt)
    (hw2 : lookupQ weights "spatial" = some wsw)
    (hw3 : lookupQ weights "spectral" = some wsp)
    (hw4 : lookupQ weights "radiometric" = some wr)
    (hne : weights ≠ [])
    (hsum : (weights.map (fun p => p.2)).sum = wt + wsw + wsp + wr)
    (hclose : |wt + wsw + wsp + wr - 1| ≤ 1/10000000000) :
    calculateConfidenceScore params (some weights) =
      .ok (snapClip (wt * clip01 pt + wsw * clip01 ps + wsp * clip01 psp + wr * clip01 pr)) := by
  have hweBool : weights.isEmpty = false := by
    cases weights with
    | nil => exact absurd rfl hne
    | cons a l => rfl
  have hfilter : requiredParams.filter (fun k => (lookupQ params k).isNone) = [] := by
    simp [requiredParams, hp1, hp2, hp3, hp4]
  have hcloseB : npIsClose ((weights.map (fun p => p.2)).sum) 1 = true := by
    rw [hsum, npIsClose_iff, abs_one]
    calc |wt + wsw + wsp + wr - 1| ≤ 1/10000000000 := hclose
      _ ≤ 1/100000000 + 1/10000000000 * 1 := by norm_num
  have hwsc : weightedScore weights params requiredParams =
      .ok (wt * clip01 pt + wsw * clip01 ps + wsp * clip01 psp + wr * clip01 pr) := by
    simp [weightedScore, requiredParams, hw1, hw2, hw3, hw4, hp1, hp2, hp3, hp4]
    ring
  simp [calculateConfidenceScore, calculateConfidenceScoreRaw, handleCalculationErrors,
    hfilter, hweBool, hcloseB, hwsc]

/-- C1 (counterexample): with all four parameters equal to `1e-9` (inside
`[0,1]`) and the default weights (which sum to exactly 1), the exact
weighted sum is `1e-9`, yet `calculate_confidence_score` returns exactly
`0.0` — the `np.isclose(score, 0, rtol=1e-10)` test keeps numpy's default
absolute tolerance `1e-8`, so the score snaps to 0 and the function does
not return the exact weighted sum. -/
theorem calculateConfidenceScore_exact_sum_cex :
    calculateConfidenceScore
      [("temporal", 1/1000000000), ("spatial", 1/1000000000),
       ("spectral", 1/1000000000), ("radiometric", 1/1000000000)]
      none = .ok 0
    ∧ weightedSum4 (4/10) (3/10) (2/10) (1/10)
        (1/1000000000) (1/1000000000) (1/1000000000) (1/1000000000) = 1/1000000000
    ∧ (0 : ℚ) ≠ 1/1000000000 := by
  refine ⟨?_, ?_, by norm_num⟩
  · norm_num +decide [calculateConfidenceScore, calculateConfidenceScoreRaw,
      handleCalculationErrors, weightedScore, lookupQ, requiredParams, defaultWeights,
      npIsClose, snapClip, clip01, abs_le]
  · norm_num [weightedSum4]

/-- C1 (amended): for every parameter map holding the four keys with values
in `[0,1]` and every weight map over those keys whose values sum to 1
within `1e-10`, `calculate_confidence_score` returns the clip-and-snap of
the exact weighted sum; the result lies in `[0,1]`; it equals the exact
weighted sum whenever that sum is farther than numpy's default absolute
tolerance `1e-8` from 0 and farther than `1e-8 + 1e-10` from 1; and it is
exactly `1.0` when all four parameters are 1 and exactly `0.0` when all
four are 0. -/
theorem calculateConfidenceScore_spec
    (params weights : List (String × ℚ)) (pt ps psp pr wt wsw wsp wr : ℚ)
    (hp1 : lookupQ params "temporal" = some pt)
    (hp2 : lookupQ params "spatial" = some ps)
    (hp3 : lookupQ params "spectral" = some psp)
    (hp4 : lookupQ params "radiometric" = some pr)
    (hb1 : 0 ≤ pt ∧ pt ≤ 1) (hb2 : 0 ≤ ps ∧ ps ≤ 1)
    (hb3 : 0 ≤ psp ∧ psp ≤ 1) (hb4 : 0 ≤ pr ∧ pr ≤ 1)
    (hw1 : lookupQ weights "temporal" = some wt)
    (hw2 : lookupQ weights "spatial" = some wsw)
    (hw3 : lookupQ weights "spectral" = some wsp)
    (hw4 : lookupQ weights "radiometric" = some wr)
    (hne : weights ≠ [])
    (hsum : (weights.map (fun p => p.2)).sum = wt + wsw + wsp + wr)
    (hclose : |wt + wsw + wsp + wr - 1| ≤ 1/10000000000) :
    calculateConfidenceScore params (some weights) =
      .ok (snapClip (weightedSum4 wt wsw wsp wr pt ps psp pr))
    ∧ 0 ≤ snapClip (weightedSum4 wt wsw wsp wr pt ps psp pr)
    ∧ snapClip (weightedSum4 wt wsw wsp wr pt ps psp pr) ≤ 1
    ∧ (1/100000000 < weightedSum4 wt wsw wsp wr pt ps psp pr ∧
        weightedSum4 wt wsw wsp wr pt ps psp pr < 1 - (1/100000000 + 1/10000000000) →
        calculateConfidenceScore params (some weights) =
          .ok (weightedSum4 wt wsw wsp wr pt ps psp pr))
    ∧ (pt = 1 ∧ ps = 1 ∧ psp = 1 ∧ pr = 1 →
        calculateConfidenceScore params (some weights) = .ok 1)
    ∧ (pt = 0 ∧ ps = 0 ∧ psp = 0 ∧ pr = 0 →
        calculateConfidenceScore params (some weights) = .ok 0) := by
  have hmain : calculateConfidenceScore params (some weights) =
      .ok (snapClip (weightedSum4 wt wsw wsp wr pt ps psp pr)) := by
    have h := calculateConfidenceScore_eval params weights pt ps psp pr wt wsw wsp wr
      hp1 hp2 hp3 hp4 hw1 hw2 hw3 hw4 hne hsum hclose
    rw [h, clip01_of_mem pt hb1.1 hb1.2, clip01_of_mem ps hb2.1 hb2.2,
      clip01_of_mem psp hb3.1 hb3.2, clip01_of_mem pr hb4.1 hb4.2]
    rfl
  refine ⟨hmain, snapClip_nonneg _, snapClip_le_one _, ?_, ?_, ?_⟩
  · intro hmid
    rw [hmain, snapClip_of_between _ hmid.1 hmid.2]
  · rintro ⟨h1, h2, h3, h4⟩
    rw [hmain, h1, h2, h3, h4]
    have : weightedSum4 wt wsw wsp wr 1 1 1 1 = wt + wsw + wsp + wr := by
      unfold weightedSum4; ring
    rw [this, snapClip_near_one _ hclose]
  · rintro ⟨h1, h2, h3, h4⟩
    rw [hmain, h1, h2, h3, h4]
    have : weightedSum4 wt wsw wsp wr 0 0 0 0 = 0 := by
      unfold weightedSum4; ring
    rw [this, snapClip_zero]

/-- Witness for `calculateConfidenceScore_spec` at a concrete input:
parameters all `1/2` with the default weight values give exactly `1/2`. -/
theorem calculateConfidenceScore_spec_witness :
    calculateConfidenceScore
      [("temporal", 1/2), ("spatial", 1/2), ("spectral", 1/2), ("radiometric", 1/2)]
      (some [("temporal", 4/10), ("spatial", 3/10), ("spectral", 2/10), ("radiometric", 1/10)]) =
      .ok (1/2) := by
  have h := calculateConfidenceScore_spec
    [("temporal", 1/2), ("spatial", 1/2), ("spectral", 1/2), ("radiometric", 1/2)]
    [("temporal", 4/10), ("spatial", 3/10), ("spectral", 2/10), ("radiometric", 1/10)]
    (1/2) (1/2) (1/2) (1/2) (4/10) (3/10) (2/10) (1/10)
    (by norm_num +decide [lookupQ]) (by norm_num +decide [lookupQ])
    (by norm_num +decide [lookupQ]) (by norm_num +decide [lookupQ])
    (by norm_num) (by norm_num) (by norm_num) (by norm_num)
    (by norm_num +decide [lookupQ]) (by norm_num +decide [lookupQ])
    (by norm_num +decide [lookupQ]) (by norm_num +decide [lookupQ])
    (by simp) (by norm_num) (by norm_num)
  have hmid := h.2.2.2.1 (by norm_num [weightedSum4])
  have : weightedSum4 (4/10) (3/10) (2/10) (1/10) (1/2) (1/2) (1/2) (1/2) = 1/2 := by
    norm_num [weightedSum4]
  rw [this] at hmid
  exact hmid

/-- C9: `calculate_confidence_score` fails whenever any of the four
required keys is absent from the parameter map; the raised error is the
missing-parameter `ValueError`, re-raised by `handle_calculation_errors`
as a `RuntimeError` naming the missing keys. -/
theorem calculateConfidenceScore_missing
    (params : List (String × ℚ)) (cw : Option (List (String × ℚ)))
    (h : ∃ k ∈ requiredParams, lookupQ params k = none) :
    calculateConfidenceScore params cw =
      .error (.runtimeError ("Calculation error: " ++
        ("Missing required parameters: " ++ String.intercalate ", "
          (requiredParams.filter (fun k => (lookupQ params k).isNone))))) := by
  obtain ⟨k, hk, hnone⟩ := h
  have hmem : k ∈ requiredParams.filter (fun k => (lookupQ params k).isNone) := by
    rw [List.mem_filter]
    exact ⟨hk, by simp [hnone]⟩
  have hb : (requiredParams.filter (fun k => (lookupQ params k).isNone)).isEmpty = false := by
    rcases hfe : requiredParams.filter (fun k => (lookupQ params k).isNone) with _ | ⟨a, t⟩
    · rw [hfe] at hmem
      exact absurd hmem (List.not_mem_nil k)
    · rfl
  simp [calculateConfidenceScore, calculateConfidenceScoreRaw, handleCalculationErrors,
    hb, PyErr.message]

/-- Witness for `calculateConfidenceScore_missing`: the empty parameter
map is missing all four keys. -/
theorem calculateConfidenceScore_missing_witness :
    calculateConfidenceScore [] none =
      .error (.runtimeError
        "Calculation error: Missing required parameters: temporal, spatial, spectral, radiometric") := by
  have h := calculateConfidenceScore_missing [] none
    ⟨"temporal", by norm_num [requiredParams], rfl⟩
  rw [h]
  simp +decide [requiredParams, lookupQ, String.intercalate]

/-! ### Collection plan model (`models/collection_plan.py`) -/

/-- The optimization-parameter dictionary as consumed by
`optimize_time_windows`: `constraints.get('max_duration', float('inf'))`
(absent = unbounded) and `constraints.get('optimal_duration', ...)`. -/
structure Constraints where
  maxDuration : Option ℚ
  optimalDuration : Option ℚ
  deriving Repr, DecidableEq

/-- `CollectionWindow`: start/end timestamps (integer seconds) and a
confidence score.  The free-form `parameters` dict only ever has to be a
dict (a statically true fact here), so it is omitted. -/
structure CWindow where
  start : ℤ
  stop : ℤ
  confidenceScore : ℚ
  deriving Repr, DecidableEq

/-- `CollectionWindow.validate`: start before end, duration at least
`MIN_WINDOW_DURATION = 300` seconds, confidence score in `[0, 1]`. -/
def windowValidate (w : CWindow) : Except PyErr Unit :=
  if w.stop ≤ w.start then
    .error (.validationError "Start time must be before end time")
  else if w.stop - w.start < 300 then
    .error (.validationError "Collection window duration must be at least 300 seconds")
  else if ¬ (0 ≤ w.confidenceScore ∧ w.confidenceScore ≤ 1) then
    .error (.validationError "Confidence score must be between 0.0 and 1.0")
  else
    .ok ()

/-- `CollectionPlan`, restricted to the fields the optimization core reads
or writes (identity fields, asset and requirements are opaque to it). -/
structure Plan where
  status : String
  startTime : ℤ
  endTime : ℤ
  confidenceScore : ℚ
  collectionWindows : List CWindow
  optimizationParameters : Constraints
  updatedAt : ℤ
  deriving Repr, DecidableEq

/-- `PLAN_STATUS_TYPES`. -/
def planStatusTypes : List String := ["DRAFT", "PROCESSING", "OPTIMIZED", "FAILED"]

/-- The `valid_transitions` dict of `CollectionPlan.update_status`;
`none` models the `KeyError` a lookup of an unknown current status
would raise. -/
def validTransitions (s : String) : Option (List String) :=
  if s = "DRAFT" then some ["PROCESSING"]
  else if s = "PROCESSING" then some ["OPTIMIZED", "FAILED"]
  else if s = "OPTIMIZED" then some []
  else if s = "FAILED" then some ["DRAFT"]
  else none

/-- `CollectionPlan.update_status`: reject unknown target states, reject
transitions outside `valid_transitions`, otherwise set the status and
refresh `updated_at` (modelled by the `now` argument). -/
def updateStatus (plan : Plan) (newStatus : String) (now : ℤ) : Except PyErr Plan :=
  if newStatus ∉ planStatusTypes then
    .error (.validationError ("Invalid status: " ++ newStatus))
  else
    match validTransitions plan.status with
    | none => .error (.keyError plan.status)
    | some ts =>
      if newStatus ∈ ts then
        .ok { plan with status := newStatus, updatedAt := now }
      else
        .error (.validationError
          ("Invalid status transition from " ++ plan.status ++ " to " ++ newStatus))

/-- `Except.isOk` specialised to the embedding's result type. -/
def exceptOk {α : Type} (r : Except PyErr α) : Bool :=
  match r with
  | .ok _ => true
  | .error _ => false

theorem exceptOk_true_iff {α : Type} (r : Except PyErr α) :
    exceptOk r = true ↔ ∃ v, r = .ok v := by
  cases r <;> simp [exceptOk]

/-- C5: `update_status` accepts exactly the four edges
DRAFT→PROCESSING, PROCESSING→OPTIMIZED, PROCESSING→FAILED and
FAILED→DRAFT; every other edge fails; an unrecognized target state fails;
and every accepted transition sets the new status and refreshes
`updated_at`. -/
theorem updateStatus_spec (p : Plan) (s : String) (now : ℤ) :
    (exceptOk (updateStatus p s now) = true ↔
      (p.status, s) ∈ [("DRAFT", "PROCESSING"), ("PROCESSING", "OPTIMIZED"),
        ("PROCESSING", "FAILED"), ("FAILED", "DRAFT")])
    ∧ (s ∉ planStatusTypes → exceptOk (updateStatus p s now) = false)
    ∧ (∀ p', updateStatus p s now = .ok p' →
        p' = { p with status := s, updatedAt := now }) := by
  refine ⟨?_, ?_, ?_⟩
  · by_cases hmem : s ∈ planStatusTypes
    · by_cases h1 : p.status = "DRAFT"
      · by_cases hs : s = "PROCESSING" <;>
          simp +decide [updateStatus, validTransitions, exceptOk, hmem, h1, hs,
            Prod.ext_iff]
      · by_cases h2 : p.status = "PROCESSING"
        · by_cases hs : s = "OPTIMIZED"
          · simp +decide [updateStatus, validTransitions, exceptOk, hmem, h2, hs,
              Prod.ext_iff]
          · by_cases hs2 : s = "FAILED" <;>
              simp +decide [updateStatus, validTransitions, exceptOk, hmem, h2, hs, hs2,
                Prod.ext_iff]
        · by_cases h3 : p.status = "OPTIMIZED"
          · simp +decide [updateStatus, validTransitions, exceptOk, hmem, h3,
              Prod.ext_iff]
          · by_cases h4 : p.status = "FAILED"
            · by_cases hs : s = "DRAFT" <;>
                simp +decide [updateStatus, validTransitions, exceptOk, hmem, h4, hs,
                  Prod.ext_iff]
            · simp +decide [updateStatus, validTransitions, exceptOk, hmem,
                h1, h2, h3, h4, Prod.ext_iff]
    · have hfalse : exceptOk (updateStatus p s now) = false := by
        simp [updateStatus, hmem, exceptOk]
      rw [hfalse]
      constructor
      · intro h
        exact absurd h (by simp)
      · intro h
        exfalso
        apply hmem
        simp only [List.mem_cons, List.not_mem_nil, or_false, Prod.mk.injEq] at h
        rcases h with ⟨_, rfl⟩ | ⟨_, rfl⟩ | ⟨_, rfl⟩ | ⟨_, rfl⟩ <;>
          simp [planStatusTypes]
  · intro hmem
    simp [updateStatus, hmem, exceptOk]
  · intro p' hok
    unfold updateStatus at hok
    by_cases hmem : s ∈ planStatusTypes
    · rw [if_neg (not_not_intro hmem)] at hok
      rcases hvt : validTransitions p.status with _ | ts <;> rw [hvt] at hok
      · exact absurd hok (by simp)
      · by_cases hts : s ∈ ts
        · simp only [Option.some.injEq, hts, if_true] at hok
          exact (Except.ok.inj hok).symm
        · simp [hts] at hok
    · rw [if_pos hmem] at hok
      exact absurd hok (by simp)

/-- Witness for `updateStatus_spec`: from a DRAFT plan the transition to
PROCESSING is accepted, the transitions to OPTIMIZED and to an unknown
status are rejected. -/
theorem updateStatus_spec_witness :
    exceptOk (updateStatus
      { status := "DRAFT", startTime := 0, endTime := 86400, confidenceScore := 0,
        collectionWindows := [], optimizationParameters := ⟨none, none⟩, updatedAt := 0 }
      "PROCESSING" 42) = true
    ∧ exceptOk (updateStatus
      { status := "DRAFT", startTime := 0, endTime := 86400, confidenceScore := 0,
        collectionWindows := [], optimizationParameters := ⟨none, none⟩, updatedAt := 0 }
      "OPTIMIZED" 42) = false
    ∧ exceptOk (updateStatus
      { status := "DRAFT", startTime := 0, endTime := 86400, confidenceScore := 0,
        collectionWindows := [], optimizationParameters := ⟨none, none⟩, updatedAt := 0 }
      "BOGUS" 42) = false := by
  refine ⟨?_, ?_, ?_⟩
  · exact (updateStatus_spec _ "PROCESSING" 42).1.mpr (by simp)
  · have h := (updateStatus_spec
      { status := "DRAFT", startTime := 0, endTime := 86400, confidenceScore := 0,
        collectionWindows := [], optimizationParameters := ⟨none, none⟩, updatedAt := 0 }
      "OPTIMIZED" 42).1
    rcases hb : exceptOk (updateStatus _ "OPTIMIZED" 42) with _ | _
    · rfl
    · have := h.mp hb
      simp +decide [Prod.ext_iff] at this
  · exact (updateStatus_spec _ "BOGUS" 42).2.1 (by simp +decide [planStatusTypes])

/-- The overlap scan of `add_collection_window`: a new window conflicts
with an existing one when `window.start_time < existing.end_time and
window.end_time > existing.start_time`. -/
def overlapsAny (w : CWindow) : List CWindow → Bool
  | [] => false
  | e :: es => if w.start < e.stop ∧ e.start < w.stop then true else overlapsAny w es

/-- `CollectionPlan.add_collection_window`, state-passing form: the second
component is the plan state after the call.  All three checks (window
validation, plan time-range containment, overlap with existing windows)
precede the first assignment, so every error exit returns the plan
untouched; on success the window is appended, the plan confidence becomes
the mean of the windows' confidences and `updated_at` is refreshed. -/
def addCollectionWindowRun (plan : Plan) (w : CWindow) (now : ℤ) :
    Except PyErr Unit × Plan :=
  match windowValidate w with
  | .error e => (.error e, plan)
  | .ok _ =>
    if w.start < plan.startTime ∨ plan.endTime < w.stop then
      (.error (.validationError "Collection window must be within plan time range"), plan)
    else if overlapsAny w plan.collectionWindows then
      (.error (.validationError "Collection windows cannot overlap"), plan)
    else
      let ws := plan.collectionWindows ++ [w]
      let conf := (ws.map (fun x => x.confidenceScore)).sum / (ws.length : ℚ)
      (.ok (), { plan with collectionWindows := ws, confidenceScore := conf,
                           updatedAt := now })

/-- C10: whenever `add_collection_window` rejects a window, the error is
raised before any mutation — either the call succeeded, or the plan state
after the call (windows, confidence, status, `updated_at` included) is
exactly the input plan. -/
theorem addCollectionWindow_reject_no_mutation (p : Plan) (w : CWindow) (now : ℤ) :
    (addCollectionWindowRun p w now).1 = .ok () ∨ (addCollectionWindowRun p w now).2 = p := by
  unfold addCollectionWindowRun
  rcases hv : windowValidate w with e | u
  · right
    rfl
  · by_cases hb : w.start < p.startTime ∨ p.endTime < w.stop
    · right
      simp [hb]
    · by_cases ho : overlapsAny w p.collectionWindows
      · right
        simp [hb, ho]
      · left
        simp [hb, ho]

/-! ### Window merging (`merge_overlapping_windows`) -/

/-- A window dictionary as produced by `optimize_time_windows` and
consumed by `merge_overlapping_windows`: start/end timestamps, duration,
sample count and confidence score.  `idx` instruments the embedding with
the original start index that generated the window (Python keeps this
implicitly as the position in the pre-sort list). -/
structure TimeWindow where
  start : ℤ
  stop : ℤ
  duration : ℤ
  sampleCount : ℕ
  conf : ℚ
  idx : ℕ
  deriving Repr, DecidableEq

/-- Stable insertion: place `w` before the first element `x` with
`before w x`, after every earlier element.  Folding it left over a list
computes exactly Python's stable `sorted`. -/
def insertStable {α : Type} (before : α → α → Bool) (w : α) : List α → List α
  | [] => [w]
  | x :: xs => if before w x then w :: x :: xs else x :: insertStable before w xs

/-- Python's stable `sorted(l, key=...)`, as a left fold of stable
insertions. -/
def sortStable {α : Type} (before : α → α → Bool) (l : List α) : List α :=
  l.foldl (fun acc w => insertStable before w acc) []

theorem mem_insertStable {α : Type} (before : α → α → Bool) (w y : α) :
    ∀ l : List α, y ∈ insertStable before w l ↔ y = w ∨ y ∈ l := by
  intro l
  induction l with
  | nil => simp [insertStable]
  | cons x xs ih =>
    unfold insertStable
    by_cases h : before w x = true
    · rw [if_pos h]
      simp
    · rw [if_neg h]
      simp [ih]
      tauto

/-- The sort key of `merge_overlapping_windows`
(`sorted(windows, key=lambda x: x['start_time'])`). -/
def startBefore (a b : TimeWindow) : Bool := decide (a.start < b.start)

theorem insertStable_start_sorted (w : TimeWindow) (l : List TimeWindow)
    (hl : l.Pairwise (fun a b => a.start ≤ b.start)) :
    (insertStable startBefore w l).Pairwise (fun a b => a.start ≤ b.start) := by
  induction l with
  | nil => simp [insertStable]
  | cons x xs ih =>
    rw [List.pairwise_cons] at hl
    unfold insertStable
    by_cases h : startBefore w x = true
    · rw [if_pos h]
      rw [startBefore, decide_eq_true_eq] at h
      refine List.Pairwise.cons ?_ (List.Pairwise.cons hl.1 hl.2)
      intro y hy
      rcases List.mem_cons.mp hy with rfl | hy2
      · exact le_of_lt h
      · exact le_trans (le_of_lt h) (hl.1 y hy2)
    · rw [if_neg h]
      have hxw : x.start ≤ w.start := by
        rw [startBefore, decide_eq_true_eq] at h
        exact le_of_not_lt h
      refine List.Pairwise.cons ?_ (ih hl.2)
      intro y hy
      rcases (mem_insertStable startBefore w y xs).mp hy with rfl | hy2
      · exact hxw
      · exact hl.1 y hy2

theorem sortStable_start_sorted (l : List TimeWindow) :
    (sortStable startBefore l).Pairwise (fun a b => a.start ≤ b.start) := by
  suffices h : ∀ acc : List TimeWindow, acc.Pairwise (fun a b => a.start ≤ b.start) →
      (l.foldl (fun acc w => insertStable startBefore w acc) acc).Pairwise
        (fun a b => a.start ≤ b.start) from h [] (by simp)
  induction l with
  | nil => intro acc hacc; exact hacc
  | cons x xs ih =>
    intro acc hacc
    exact ih _ (insertStable_start_sorted x acc hacc)

theorem insertStable_append (w : TimeWindow) (acc : List TimeWindow)
    (h : ∀ x ∈ acc, x.start ≤ w.start) :
    insertStable startBefore w acc = acc ++ [w] := by
  induction acc with
  | nil => rfl
  | cons x xs ih =>
    unfold insertStable
    rw [if_neg]
    · rw [ih (fun y hy => h y (List.mem_cons_of_mem x hy))]
      rfl
    · rw [startBefore, decide_eq_true_eq]
      exact not_lt.mpr (h x (List.mem_cons_self x xs))

theorem foldl_insert_of_sorted :
    ∀ (l acc : List TimeWindow),
      ((acc ++ l).Pairwise (fun a b => a.start ≤ b.start)) →
      l.foldl (fun acc w => insertStable startBefore w acc) acc = acc ++ l
  | [], acc, _ => by simp
  | x :: xs, acc, h => by
    have hx : ∀ y ∈ acc, y.start ≤ x.start := by
      intro y hy
      exact (List.pairwise_append.mp h).2.2 y hy x (by simp)
    rw [List.foldl_cons, insertStable_append x acc hx]
    have he : (acc ++ [x]) ++ xs = acc ++ x :: xs := by simp
    rw [foldl_insert_of_sorted xs (acc ++ [x]) (by rw [he]; exact h)]
    simp

/-- Sorting a list already sorted by start time returns it unchanged
(the fixed-point fact behind idempotence of the merger). -/
theorem sortStable_fixed (l : List TimeWindow)
    (hl : l.Pairwise (fun a b => a.start ≤ b.start)) :
    sortStable startBefore l = l := by
  have h := foldl_insert_of_sorted l [] (by simpa using hl)
  simpa [sortStable] using h

/-- Merging two adjacent windows: start of the first, maximum of the two
ends (duration recomputed), maximum of the two confidence scores; the
sample count and generating index stay those of the accumulator. -/
def mergeTwo (cur nxt : TimeWindow) : TimeWindow :=
  { start := cur.start, stop := max cur.stop nxt.stop,
    duration := max cur.stop nxt.stop - cur.start,
    sampleCount := cur.sampleCount,
    conf := max cur.conf nxt.conf, idx := cur.idx }

/-- The left-to-right accumulator pass of `merge_overlapping_windows`:
merge the next window into the accumulator when
`next.start - current.end ≤ MAX_GAP_DURATION = 3600`, otherwise flush. -/
def mergeGo (cur : TimeWindow) : List TimeWindow → List TimeWindow
  | [] => [cur]
  | n :: rest =>
    if n.start - cur.stop ≤ 3600 then mergeGo (mergeTwo cur n) rest
    else cur :: mergeGo n rest

/-- `merge_overlapping_windows`: sort by start time, then the accumulator
pass. -/
def mergeOverlappingWindows (ws : List TimeWindow) : List TimeWindow :=
  match sortStable startBefore ws with
  | [] => []
  | w :: rest => mergeGo w rest

/-- Separation of two consecutive merged windows: a gap of more than
`3600` seconds, with starts in order. -/
def sepRel (a b : TimeWindow) : Prop := a.stop + 3600 < b.start ∧ a.start ≤ b.start

instance : IsTrans TimeWindow sepRel :=
  ⟨fun _ _ _ h1 h2 => ⟨lt_of_lt_of_le h1.1 h2.2, le_trans h1.2 h2.2⟩⟩

theorem mergeGo_head :
    ∀ (rest : List TimeWindow) (cur : TimeWindow),
      ∃ w t, mergeGo cur rest = w :: t ∧ w.start = cur.start := by
  intro rest
  induction rest with
  | nil => exact fun cur => ⟨cur, [], rfl, rfl⟩
  | cons n rest ih =>
    intro cur
    unfold mergeGo
    by_cases hg : n.start - cur.stop ≤ 3600
    · rw [if_pos hg]
      obtain ⟨w, t, he, hs⟩ := ih (mergeTwo cur n)
      exact ⟨w, t, he, hs⟩
    · rw [if_neg hg]
      exact ⟨cur, mergeGo n rest, rfl, rfl⟩

theorem mergeGo_chain :
    ∀ (rest : List TimeWindow) (cur : TimeWindow),
      (∀ x ∈ rest, cur.start ≤ x.start) →
      rest.Pairwise (fun a b => a.start ≤ b.start) →
      (mergeGo cur rest).Chain' sepRel := by
  intro rest
  induction rest with
  | nil => exact fun cur _ _ => List.chain'_singleton cur
  | cons n rest ih =>
    intro cur hle hpw
    rw [List.pairwise_cons] at hpw
    unfold mergeGo
    by_cases hg : n.start - cur.stop ≤ 3600
    · rw [if_pos hg]
      apply ih (mergeTwo cur n) ?_ hpw.2
      intro x hx
      exact hle x (List.mem_cons_of_mem n hx)
    · rw [if_neg hg]
      obtain ⟨w, t, he, hs⟩ := mergeGo_head rest n
      rw [he]
      rw [List.chain'_cons]
      constructor
      · constructor
        · rw [hs]; omega
        · rw [hs]; exact hle n (List.mem_cons_self n rest)
      · rw [← he]
        exact ih n hpw.1 hpw.2

theorem mergeOverlappingWindows_chain (ws : List TimeWindow) :
    (mergeOverlappingWindows ws).Chain' sepRel := by
  unfold mergeOverlappingWindows
  rcases hs : sortStable startBefore ws with _ | ⟨w, rest⟩
  · simp
  · have hsorted := sortStable_start_sorted ws
    rw [hs, List.pairwise_cons] at hsorted
    exact mergeGo_chain rest w hsorted.1 hsorted.2

theorem mergeOverlappingWindows_pairwise (ws : List TimeWindow) :
    (mergeOverlappingWindows ws).Pairwise sepRel :=
  List.chain'_iff_pairwise.mp (mergeOverlappingWindows_chain ws)

theorem mergeGo_of_chain :
    ∀ (rest : List TimeWindow) (cur : TimeWindow),
      List.Chain' sepRel (cur :: rest) → mergeGo cur rest = cur :: rest := by
  intro rest
  induction rest with
  | nil => intro cur _; rfl
  | cons n rest ih =>
    intro cur hc
    rw [List.chain'_cons] at hc
    unfold mergeGo
    rw [if_neg (by have := hc.1.1; omega)]
    rw [ih n hc.2]

/-- C6: for every window list, `merge_overlapping_windows` (max gap
3600 s) returns a list ordered by ascending start time whose windows are
pairwise non-overlapping; applying it again to its own output returns the
same list; and one accumulator step merges exactly when
`next.start - current.end ≤ 3600`, the merged window taking the maximum
of the two end times and the maximum of the two confidence scores. -/
theorem mergeOverlappingWindows_spec (ws : List TimeWindow) :
    (mergeOverlappingWindows ws).Pairwise (fun a b => a.start ≤ b.start)
    ∧ (mergeOverlappingWindows ws).Pairwise
        (fun a b => ¬ (a.start < b.stop ∧ b.start < a.stop))
    ∧ mergeOverlappingWindows (mergeOverlappingWindows ws) = mergeOverlappingWindows ws
    ∧ (∀ cur nxt rest, mergeGo cur (nxt :: rest) =
        if nxt.start - cur.stop ≤ 3600 then
          mergeGo { start := cur.start, stop := max cur.stop nxt.stop,
                    duration := max cur.stop nxt.stop - cur.start,
                    sampleCount := cur.sampleCount,
                    conf := max cur.conf nxt.conf, idx := cur.idx } rest
        else cur :: mergeGo nxt rest) := by
  have hsep := mergeOverlappingWindows_pairwise ws
  refine ⟨hsep.imp (fun h => h.2), hsep.imp ?_, ?_, ?_⟩
  · intro a b h hov
    have h1 := h.1
    have h2 := hov.2
    omega
  · have hchain := mergeOverlappingWindows_chain ws
    have hfix : sortStable startBefore (mergeOverlappingWindows ws) =
        mergeOverlappingWindows ws :=
      sortStable_fixed _ (hsep.imp (fun h => h.2))
    rcases hm : mergeOverlappingWindows ws with _ | ⟨w, rest⟩
    · rfl
    · rw [hm] at hfix hchain
      show mergeOverlappingWindows (w :: rest) = w :: rest
      unfold mergeOverlappingWindows
      rw [hfix]
      exact mergeGo_of_chain rest w hchain
  · intro cur nxt rest
    rfl

/-! ### Window generation (`optimize_time_windows`) -/

/-- The duration bound of the inner while loop:
`(sorted_times[end_idx] - start_time).total_seconds() <=
constraints.get('max_duration', float('inf'))`. -/
def withinMaxDur (d : ℤ) : Option ℚ → Bool
  | none => true
  | some m => decide ((d : ℚ) ≤ m)

/-- The `while` loop growing `end_idx` from `i + 1` while the next sample
still fits the duration bound; the fuel argument is `ts.length`, an upper
bound on the number of iterations. -/
def growEnd (ts : List ℤ) (maxDur : Option ℚ) (start : ℤ) : ℕ → ℕ → ℕ
  | 0, e => e
  | fuel + 1, e =>
    if e < ts.length then
      if withinMaxDur (ts.getD e 0 - start) maxDur then
        growEnd ts maxDur start fuel (e + 1)
      else e
    else e

/-- `process_window(start_idx)`: grow the end index, reject windows with
fewer than two samples, compute the temporal sub-score
`min(duration / optimal_duration, 1.0)` (the default optimal duration is
the window's own duration; a zero denominator raises `ZeroDivisionError`
exactly as the Python division does), then score through
`calculate_confidence_score` with the other three dimensions at 1.0. -/
def processWindow (ts : List ℤ) (c : Constraints) (i : ℕ) :
    Except PyErr (Option TimeWindow) :=
  let start := ts.getD i 0
  let e := growEnd ts c.maxDuration start ts.length (i + 1)
  if e - i < 2 then .ok none
  else
    let stop := ts.getD (e - 1) 0
    let dur := stop - start
    let tempE : Except PyErr ℚ :=
      match c.optimalDuration with
      | some opt =>
        if opt = 0 then .error .zeroDivisionError
        else .ok (min ((dur : ℚ) / opt) 1)
      | none =>
        if (dur : ℚ) = 0 then .error .zeroDivisionError
        else .ok (min ((dur : ℚ) / (dur : ℚ)) 1)
    match tempE with
    | .error err => .error err
    | .ok t =>
      match calculateConfidenceScore
          [("temporal", t), ("spatial", 1), ("spectral", 1), ("radiometric", 1)] none with
      | .error err => .error err
      | .ok conf =>
        .ok (some { start := start, stop := stop, duration := dur,
                    sampleCount := e - i, conf := conf, idx := i })

/-- `list(filter(None, executor.map(process_window, range(len(...)))))`:
the executor yields results in index order and re-raises the earliest
exception, so the parallel map is equivalent to this sequential pass. -/
def gatherWindows (ts : List ℤ) (c : Constraints) : List ℕ → Except PyErr (List TimeWindow)
  | [] => .ok []
  | i :: rest =>
    match processWindow ts c i with
    | .error e => .error e
    | .ok o =>
      match gatherWindows ts c rest with
      | .error e => .error e
      | .ok others => .ok (match o with | some w => w :: others | none => others)

/-- The sort key of `windows.sort(key=lambda x: x['confidence_score'],
reverse=True)`: a stable descending sort places a new window before the
first strictly smaller confidence. -/
def confBefore (a b : TimeWindow) : Bool := decide (b.conf < a.conf)

/-- Python slice `l[:k]`, including the negative-index behaviour. -/
def pySlice (l : List TimeWindow) (k : ℤ) : List TimeWindow :=
  if 0 ≤ k then l.take k.toNat else l.take ((l.length : ℤ) + k).toNat

/-- `optimize_time_windows`: empty input short-circuits to `[]`; the
sorted candidate list must span at least `MIN_WINDOW_DURATION = 300`
seconds; windows are generated per start index, sorted by confidence
descending (stable), and truncated by `windows[:max_windows]` only when
`max_windows` is truthy (`if max_windows:` — `None` and `0` both skip the
truncation). -/
def optimizeTimeWindows (candidateTimes : List ℤ) (c : Constraints)
    (maxWindows : Option ℤ) : Except PyErr (List TimeWindow) :=
  if candidateTimes.isEmpty then .ok []
  else
    let ts := sortStable (fun a b => decide (a < b)) candidateTimes
    if ts.getLastD 0 - ts.headD 0 < 300 then
      .error (.valueError "Time span must be at least 300 seconds")
    else
      match gatherWindows ts c (List.range ts.length) with
      | .error e => .error e
      | .ok ws =>
        let sorted := sortStable confBefore ws
        .ok (match maxWindows with
             | none => sorted
             | some k => if k ≠ 0 then pySlice sorted k else sorted)

/-- Confidence-descending order with ties broken by ascending generating
index — the postcondition of a stable descending sort of windows listed in
index order. -/
def confOrder (a b : TimeWindow) : Prop :=
  b.conf < a.conf ∨ (a.conf = b.conf ∧ a.idx < b.idx)

theorem insertStable_confOrder (w : TimeWindow) (acc : List TimeWindow)
    (hpw : acc.Pairwise confOrder) (hidx : ∀ x ∈ acc, x.idx < w.idx) :
    (insertStable confBefore w acc).Pairwise confOrder := by
  induction acc with
  | nil => simp [insertStable]
  | cons x xs ih =>
    rw [List.pairwise_cons] at hpw
    unfold insertStable
    by_cases h : confBefore w x = true
    · rw [if_pos h]
      rw [confBefore, decide_eq_true_eq] at h
      refine List.Pairwise.cons ?_ (List.Pairwise.cons hpw.1 hpw.2)
      intro y hy
      rcases List.mem_cons.mp hy with rfl | hy2
      · exact Or.inl h
      · rcases hpw.1 y hy2 with hlt | ⟨heq, _⟩
        · exact Or.inl (lt_trans hlt h)
        · exact Or.inl (by rw [← heq]; exact h)
    · rw [if_neg h]
      have hwx : w.conf ≤ x.conf := by
        rw [confBefore, decide_eq_true_eq] at h
        exact le_of_not_lt h
      refine List.Pairwise.cons ?_
        (ih hpw.2 (fun y hy => hidx y (List.mem_cons_of_mem x hy)))
      intro y hy
      rcases (mem_insertStable confBefore w y xs).mp hy with rfl | hy2
      · rcases lt_or_eq_of_le hwx with hlt | heq
        · exact Or.inl hlt
        · exact Or.inr ⟨heq.symm, hidx x (List.mem_cons_self x xs)⟩
      · exact hpw.1 y hy2

theorem foldl_insert_confOrder :
    ∀ (l acc : List TimeWindow), l.Pairwise (fun a b => a.idx < b.idx) →
      acc.Pairwise confOrder → (∀ x ∈ acc, ∀ w ∈ l, x.idx < w.idx) →
      (l.foldl (fun acc w => insertStable confBefore w acc) acc).Pairwise confOrder
  | [], _, _, hacc, _ => by simpa using hacc
  | x :: xs, acc, hl, hacc, hcross => by
    rw [List.pairwise_cons] at hl
    rw [List.foldl_cons]
    apply foldl_insert_confOrder xs (insertStable confBefore x acc) hl.2
    · exact insertStable_confOrder x acc hacc
        (fun y hy => hcross y hy x (List.mem_cons_self x xs))
    · intro y hy w hw
      rcases (mem_insertStable confBefore x y acc).mp hy with rfl | hy2
      · exact hl.1 w hw
      · exact hcross y hy2 w (List.mem_cons_of_mem x hw)

theorem sortStable_confOrder (l : List TimeWindow)
    (hl : l.Pairwise (fun a b => a.idx < b.idx)) :
    (sortStable confBefore l).Pairwise confOrder := by
  simpa [sortStable] using foldl_insert_confOrder l [] hl (by simp) (by simp)

theorem processWindow_idx (ts : List ℤ) (c : Constraints) (i : ℕ) (w : TimeWindow)
    (h : processWindow ts c i = .ok (some w)) : w.idx = i := by
  simp only [processWindow] at h
  split at h
  · simp at h
  · split at h
    · simp at h
    · split at h
      · simp at h
      · rw [Except.ok.injEq, Option.some.injEq] at h
        rw [← h]

theorem gatherWindows_mem_idx :
    ∀ (idxs : List ℕ) (ts : List ℤ) (c : Constraints) (l : List TimeWindow),
      gatherWindows ts c idxs = .ok l → ∀ w ∈ l, w.idx ∈ idxs
  | [], _, _, l, h => by
    simp only [gatherWindows, Except.ok.injEq] at h
    rw [← h]
    simp
  | i :: rest, ts, c, l, h => by
    simp only [gatherWindows] at h
    rcases hp : processWindow ts c i with e | o <;> rw [hp] at h
    · simp at h
    · rcases hg : gatherWindows ts c rest with e | others <;> rw [hg] at h
      · simp at h
      · rw [Except.ok.injEq] at h
        intro w hw
        rw [← h] at hw
        rcases o with _ | v
        · exact List.mem_cons_of_mem i (gatherWindows_mem_idx rest ts c others hg w hw)
        · rcases List.mem_cons.mp hw with rfl | hw2
          · rw [processWindow_idx ts c i w hp]
            exact List.mem_cons_self i rest
          · exact List.mem_cons_of_mem i (gatherWindows_mem_idx rest ts c others hg w hw2)

theorem gatherWindows_pairwise_idx :
    ∀ (idxs : List ℕ) (ts : List ℤ) (c : Constraints) (l : List TimeWindow),
      idxs.Pairwise (· < ·) → gatherWindows ts c idxs = .ok l →
      l.Pairwise (fun a b => a.idx < b.idx)
  | [], _, _, l, _, h => by
    simp only [gatherWindows, Except.ok.injEq] at h
    rw [← h]
    simp
  | i :: rest, ts, c, l, hpw, h => by
    rw [List.pairwise_cons] at hpw
    simp only [gatherWindows] at h
    rcases hp : processWindow ts c i with e | o <;> rw [hp] at h
    · simp at h
    · rcases hg : gatherWindows ts c rest with e | others <;> rw [hg] at h
      · simp at h
      · rw [Except.ok.injEq] at h
        have hrest := gatherWindows_pairwise_idx rest ts c others hpw.2 hg
        rcases o with _ | v
        · rw [← h]
          exact hrest
        · rw [← h]
          refine List.Pairwise.cons ?_ hrest
          intro w hw
          rw [processWindow_idx ts c i v hp]
          exact hpw.1 w.idx (gatherWindows_mem_idx rest ts c others hg w hw)

/-- C8 (amended): whenever `optimize_time_windows` returns a window list,
that list is sorted by confidence descending with ties broken by ascending
original start index (the stable sort); and whenever a positive
`max_windows` is given the output holds at most `max_windows` windows
(`max_windows = 0` is falsy in `if max_windows:` and performs no
truncation). -/
theorem optimizeTimeWindows_sorted (ts : List ℤ) (c : Constraints)
    (mw : Option ℤ) (l : List TimeWindow)
    (h : optimizeTimeWindows ts c mw = .ok l) :
    l.Pairwise confOrder ∧ (∀ k : ℤ, mw = some k → 0 < k → (l.length : ℤ) ≤ k) := by
  simp only [optimizeTimeWindows] at h
  split at h
  · rw [Except.ok.injEq] at h
    rw [← h]
    exact ⟨by simp, fun k _ hk => le_of_lt hk⟩
  · split at h
    · simp at h
    · rcases hg : gatherWindows (sortStable (fun a b => decide (a < b)) ts) c
          (List.range (sortStable (fun a b => decide (a < b)) ts).length) with e | ws <;>
        rw [hg] at h
      · simp at h
      · rw [Except.ok.injEq] at h
        have hsorted : (sortStable confBefore ws).Pairwise confOrder :=
          sortStable_confOrder ws
            (gatherWindows_pairwise_idx _ _ _ _ (List.pairwise_lt_range _) hg)
        rcases mw with _ | k
        · rw [← h]
          exact ⟨hsorted, by simp⟩
        · by_cases hk : k = 0
          · rw [hk] at h
            simp only [if_neg (fun hc : (0:ℤ) ≠ 0 => hc rfl)] at h
            rw [← h]
            refine ⟨hsorted, ?_⟩
            intro k' hk' hpos
            rw [Option.some.injEq] at hk'
            rw [← hk'] at hpos
            exact absurd hpos (by simp [hk])
          · simp only [if_pos hk] at h
            rw [← h]
            constructor
            · unfold pySlice
              split
              · exact hsorted.sublist (List.take_sublist _ _)
              · exact hsorted.sublist (List.take_sublist _ _)
            · intro k' hk' hpos
              rw [Option.some.injEq] at hk'
              rw [← hk'] at hpos ⊢
              unfold pySlice
              rw [if_pos (le_of_lt hpos)]
              have h1 : ((sortStable confBefore ws).take k.toNat).length ≤ k.toNat := by
                simp [List.length_take]
              calc ((((sortStable confBefore ws).take k.toNat).length : ℕ) : ℤ)
                  ≤ (k.toNat : ℤ) := by exact_mod_cast h1
                _ = k := Int.toNat_of_nonneg (le_of_lt hpos)

theorem optimizeTimeWindows_eval_max0 :
    optimizeTimeWindows [0, 400] ⟨none, none⟩ (some 0) =
      .ok [{ start := 0, stop := 400, duration := 400, sampleCount := 2,
             conf := 1, idx := 0 }] := by
  norm_num +decide [optimizeTimeWindows, sortStable, insertStable, gatherWindows,
    processWindow, growEnd, withinMaxDur, confBefore, pySlice, List.range_succ,
    calculateConfidenceScore, calculateConfidenceScoreRaw, handleCalculationErrors,
    weightedScore, lookupQ, requiredParams, defaultWeights, npIsClose, snapClip,
    clip01, abs_le, List.getD, List.getLastD, List.headD]

theorem optimizeTimeWindows_eval_max1 :
    optimizeTimeWindows [0, 400] ⟨none, none⟩ (some 1) =
      .ok [{ start := 0, stop := 400, duration := 400, sampleCount := 2,
             conf := 1, idx := 0 }] := by
  norm_num +decide [optimizeTimeWindows, sortStable, insertStable, gatherWindows,
    processWindow, growEnd, withinMaxDur, confBefore, pySlice, List.range_succ,
    calculateConfidenceScore, calculateConfidenceScoreRaw, handleCalculationErrors,
    weightedScore, lookupQ, requiredParams, defaultWeights, npIsClose, snapClip,
    clip01, abs_le, List.getD, List.getLastD, List.headD]

/-- C8 (counterexample): `max_windows = 0` is given, yet the returned
list keeps one window — `if max_windows:` treats `0` as falsy and skips
the `windows[:max_windows]` truncation, so the output is not truncated to
at most `max_windows` entries. -/
theorem optimizeTimeWindows_max0_cex :
    optimizeTimeWindows [0, 400] ⟨none, none⟩ (some 0) =
      .ok [{ start := 0, stop := 400, duration := 400, sampleCount := 2,
             conf := 1, idx := 0 }]
    ∧ ¬ ((([({ start := 0, stop := 400, duration := 400, sampleCount := 2,
               conf := 1, idx := 0 } : TimeWindow)] : List TimeWindow).length : ℤ) ≤ 0) := by
  exact ⟨optimizeTimeWindows_eval_max0, by norm_num⟩

/-- Witness for `optimizeTimeWindows_sorted` at a concrete input with
`max_windows = 1`. -/
theorem optimizeTimeWindows_sorted_witness :
    ([({ start := 0, stop := 400, duration := 400, sampleCount := 2,
         conf := 1, idx := 0 } : TimeWindow)] : List TimeWindow).Pairwise confOrder
    ∧ (([({ start := 0, stop := 400, duration := 400, sampleCount := 2,
            conf := 1, idx := 0 } : TimeWindow)] : List TimeWindow).length : ℤ) ≤ 1 := by
  have h := optimizeTimeWindows_sorted [0, 400] ⟨none, none⟩ (some 1) _
    optimizeTimeWindows_eval_max1
  exact ⟨h.1, h.2 1 rfl (by norm_num)⟩

/-! ### EARTH-n client (`services/earthn_service.py`) -/

/-- A collection window as returned by the oracle: timestamps plus the
four raw dimension scores (`window.get('<dim>_score', 0.0)` — an absent
score is modelled by the defaulted value `0`). -/
structure OracleWindow where
  start : ℤ
  stop : ℤ
  temporalScore : ℚ
  spatialScore : ℚ
  spectralScore : ℚ
  radiometricScore : ℚ
  deriving Repr, DecidableEq

/-- The parameter dict built from a window's raw dimension scores. -/
def windowConfidenceParams (w : OracleWindow) : List (String × ℚ) :=
  [("temporal", w.temporalScore), ("spatial", w.spatialScore),
   ("spectral", w.spectralScore), ("radiometric", w.radiometricScore)]

/-- An HTTP response from the oracle: status code and the JSON fields the
client reads (`status`, `results.collection_windows`, `error`). -/
structure HttpResp where
  statusCode : ℕ
  respStatus : String
  respWindows : List OracleWindow
  respError : Option String
  deriving Repr, DecidableEq

/-- The scoring loop of `_process_planning_results`: each window's four
raw scores through `calculate_confidence_score`. -/
def scoreOracleWindows : List OracleWindow → Except PyErr (List (OracleWindow × ℚ))
  | [] => .ok []
  | w :: ws =>
    match calculateConfidenceScore (windowConfidenceParams w) none with
    | .error e => .error e
    | .ok c =>
      match scoreOracleWindows ws with
      | .error e => .error e
      | .ok rest => .ok ((w, c) :: rest)

/-- Sort key of `_process_planning_results`' confidence-descending sort. -/
def confBeforeOW (a b : OracleWindow × ℚ) : Bool := decide (b.2 < a.2)

/-- `_process_planning_results`: score every window, sort by confidence
descending, attach the overall confidence (mean, `0.0` when empty). -/
def processPlanningResults (ws : List OracleWindow) :
    Except PyErr (List (OracleWindow × ℚ) × ℚ) :=
  match scoreOracleWindows ws with
  | .error e => .error e
  | .ok scored =>
    let sorted := sortStable confBeforeOW scored
    let overall :=
      if sorted.isEmpty then 0
      else (sorted.map (fun p => p.2)).sum / (sorted.length : ℚ)
    .ok (sorted, overall)

/-- One (undecorated) attempt of `get_planning_status`: empty request id
raises `ValueError`; a 404 response raises
`ValueError("Planning request ... not found")`; any other `>= 400`
response re-raises the `HTTPStatusError`; a COMPLETED 2xx response is
enriched through `_process_planning_results`. -/
def getPlanningStatusBody (requestId : String) (resp : HttpResp) :
    Except PyErr (String × Option (List (OracleWindow × ℚ) × ℚ)) :=
  if requestId = "" then .error (.valueError "Request ID is required")
  else if resp.statusCode = 404 then
    .error (.valueError ("Planning request " ++ requestId ++ " not found"))
  else if 400 ≤ resp.statusCode then .error (.httpStatusError resp.statusCode)
  else if resp.respStatus = "COMPLETED" then
    match processPlanningResults resp.respWindows with
    | .error e => .error e
    | .ok pr => .ok (resp.respStatus, some pr)
  else .ok (resp.respStatus, none)

/-- One (undecorated) attempt of `cancel_planning_request`; on success it
reports whether the status code was 200. -/
def cancelPlanningRequestBody (requestId : String) (resp : HttpResp) :
    Except PyErr Bool :=
  if requestId = "" then .error (.valueError "Request ID is required")
  else if resp.statusCode = 404 then
    .error (.valueError ("Planning request " ++ requestId ++ " not found"))
  else if 400 ≤ resp.statusCode then .error (.httpStatusError resp.statusCode)
  else .ok (decide (resp.statusCode = 200))

/-- `tenacity.retry(stop=stop_after_attempt(...), wait=...)` with the
default retry condition: every exception triggers a retry; once the stop
condition is reached the last exception is wrapped in `RetryError`
(`reraise` defaults to `False`).  The fuel argument counts the remaining
retries; the second component of the result is the number of attempts
made. -/
def retryAux {α : Type} (attempt : ℕ → Except PyErr α) :
    ℕ → ℕ → Except PyErr α × ℕ
  | 0, n =>
    (match attempt n with
     | .ok v => (.ok v, n + 1)
     | .error e => (.error (.retryError e), n + 1))
  | fuel + 1, n =>
    (match attempt n with
     | .ok v => (.ok v, n + 1)
     | .error _ => retryAux attempt fuel (n + 1))

/-- `@retry(stop=stop_after_attempt(MAX_RETRIES))` with `MAX_RETRIES = 3`. -/
def retryCall {α : Type} (attempt : ℕ → Except PyErr α) : Except PyErr α × ℕ :=
  retryAux attempt 2 0

/-- `get_planning_status` as callers see it (decorated), fed one HTTP
response per attempt. -/
def getPlanningStatus (requestId : String) (resp : ℕ → HttpResp) :
    Except PyErr (String × Option (List (OracleWindow × ℚ) × ℚ)) × ℕ :=
  retryCall (fun n => getPlanningStatusBody requestId (resp n))

/-- `cancel_planning_request` as callers see it (decorated). -/
def cancelPlanningRequest (requestId : String) (resp : ℕ → HttpResp) :
    Except PyErr Bool × ℕ :=
  retryCall (fun n => cancelPlanningRequestBody requestId (resp n))

/-- A constant-404 oracle. -/
def resp404 : HttpResp := ⟨404, "", [], none⟩

/-- C7 (counterexample): with every response a 404, both poll and cancel
run 3 attempts — the `ValueError` raised for the 404 is retried like any
other exception by the tenacity decorator — and what finally surfaces is
a `RetryError` wrapping that `ValueError`, not an immediately raised
not-found error on the first attempt. -/
theorem earthn_404_cex :
    getPlanningStatus "req-1" (fun _ => resp404) =
      (.error (.retryError (.valueError "Planning request req-1 not found")), 3)
    ∧ cancelPlanningRequest "req-1" (fun _ => resp404) =
      (.error (.retryError (.valueError "Planning request req-1 not found")), 3)
    ∧ (3 : ℕ) ≠ 1 := by
  refine ⟨?_, ?_, by decide⟩
  · simp +decide [getPlanningStatus, retryCall, retryAux, getPlanningStatusBody, resp404]
  · simp +decide [cancelPlanningRequest, retryCall, retryAux, cancelPlanningRequestBody,
      resp404]

/-- C7 (amended): for every poll or cancel call with a non-empty request
id receiving only 404 responses, the 404 does not surface immediately:
the tenacity decorator retries the raised `ValueError` and after 3
attempts a `RetryError` wrapping it surfaces. -/
theorem earthn_404_retried (requestId : String) (resp : ℕ → HttpResp)
    (hid : requestId ≠ "") (h404 : ∀ n, (resp n).statusCode = 404) :
    getPlanningStatus requestId resp =
      (.error (.retryError (.valueError
        ("Planning request " ++ requestId ++ " not found"))), 3)
    ∧ cancelPlanningRequest requestId resp =
      (.error (.retryError (.valueError
        ("Planning request " ++ requestId ++ " not found"))), 3) := by
  have hbg : ∀ n, getPlanningStatusBody requestId (resp n) =
      .error (.valueError ("Planning request " ++ requestId ++ " not found")) := by
    intro n
    simp [getPlanningStatusBody, hid, h404 n]
  have hbc : ∀ n, cancelPlanningRequestBody requestId (resp n) =
      .error (.valueError ("Planning request " ++ requestId ++ " not found")) := by
    intro n
    simp [cancelPlanningRequestBody, hid, h404 n]
  constructor
  · simp [getPlanningStatus, retryCall, retryAux, hbg]
  · simp [cancelPlanningRequest, retryCall, retryAux, hbc]

/-- Witness for `earthn_404_retried` at a concrete request id and a
constant-404 response stream. -/
theorem earthn_404_retried_witness :
    getPlanningStatus "req-9" (fun _ => resp404) =
      (.error (.retryError (.valueError
        ("Planning request " ++ "req-9" ++ " not found"))), 3)
    ∧ cancelPlanningRequest "req-9" (fun _ => resp404) =
      (.error (.retryError (.valueError
        ("Planning request " ++ "req-9" ++ " not found"))), 3) :=
  earthn_404_retried "req-9" (fun _ => resp404) (by decide) (fun _ => rfl)

/-! ### Optimization orchestration (`services/optimization_service.py`) -/

/-- One `get_planning_status` result as the orchestrator's poll loop sees
it: `status['status']`, `status.get('error')` and
`status['results']['collection_windows']`. -/
structure PollResp where
  pollStatus : String
  pollError : Option String
  pollResults : List OracleWindow
  deriving Repr, DecidableEq

/-- The poll loop of `optimize_collection_plan`: iteration `i` runs at
`submission + 2·i` seconds (each pass ends in `asyncio.sleep(2)`; the
call itself is instantaneous in the model), and the loop condition
`time < start + OPTIMIZATION_TIMEOUT` (300 s) admits exactly the
iterations with `2·i < 300`.  A COMPLETED status returns the results, a
FAILED status raises `RuntimeError("Optimization failed: ...")`
(`status.get('error')` renders as `"None"` when absent), and falling out
of the loop yields no result.  The fuel `150` bounds the iterations.
(The model assumes a COMPLETED response carries a truthy `results` object;
a COMPLETED response with a falsy `results` would fall into the same
`if not result` timeout branch in the source, a case outside the claims
considered here.) -/
def pollLoopAux (poll : ℕ → PollResp) : ℕ → ℕ → Except PyErr (Option (List OracleWindow))
  | 0, _ => .ok none
  | fuel + 1, i =>
    if 2 * i < 300 then
      if (poll i).pollStatus = "COMPLETED" then .ok (some (poll i).pollResults)
      else if (poll i).pollStatus = "FAILED" then
        .error (.runtimeError ("Optimization failed: " ++ (poll i).pollError.getD "None"))
      else pollLoopAux poll fuel (i + 1)
    else .ok none

/-- The poll loop started at the submission instant. -/
def pollLoop (poll : ℕ → PollResp) : Except PyErr (Option (List OracleWindow)) :=
  pollLoopAux poll 150 0

/-- The window dictionaries reaching `plan.add_collection_window` carry
start/end/confidence; this is the coercion the source leaves implicit by
passing the dict where a `CollectionWindow` instance is expected. -/
def toCWindow (w : TimeWindow) : CWindow :=
  { start := w.start, stop := w.stop, confidenceScore := w.conf }

/-- The `for window in final_windows: plan.add_collection_window(window)`
loop: adds mutate the plan as they succeed, and the first rejected add
aborts the loop with the plan holding the previously added windows. -/
def addAllRun : Plan → List CWindow → ℤ → Except PyErr Unit × Plan
  | p, [], _ => (.ok (), p)
  | p, w :: ws, now =>
    match addCollectionWindowRun p w now with
    | (.ok _, p') => addAllRun p' ws now
    | (.error e, p') => (.error e, p')

/-- The per-window scores of `calculate_plan_confidence`: the windows it
receives are the optimizer/merger dictionaries, which carry none of the
four `<dim>_score` keys, so every `window.get('<dim>_score', 0.0)` yields
the default `0.0`. -/
def calcPlanConfidenceScores : List TimeWindow → Except PyErr (List ℚ)
  | [] => .ok []
  | _ :: ws =>
    match calculateConfidenceScore
        [("temporal", 0), ("spatial", 0), ("spectral", 0), ("radiometric", 0)] none with
    | .error e => .error e
    | .ok c =>
      match calcPlanConfidenceScores ws with
      | .error e => .error e
      | .ok rest => .ok (c :: rest)

/-- `calculate_plan_confidence`: `0.0` for an empty list, otherwise the
mean of the per-window scores. -/
def calcPlanConfidence (ws : List TimeWindow) : Except PyErr ℚ :=
  if ws.isEmpty then .ok 0
  else
    match calcPlanConfidenceScores ws with
    | .error e => .error e
    | .ok scores => .ok (scores.sum / (scores.length : ℚ))

/-- `process_optimization_results`, state-passing form (the second
component is the plan state after the call): reject an empty window list;
score every window through `calculate_confidence_score`; keep those with
confidence `≥ MIN_ACCEPTABLE_SCORE = 0.6`; call `optimize_time_windows`
on the validated windows' start times with the plan's optimization
parameters (and no `max_windows`); merge the optimizer's output; add each
merged window to the plan; overwrite the plan confidence with
`calculate_plan_confidence`; transition to OPTIMIZED. -/
def processOptimizationResultsRun (results : List OracleWindow) (plan : Plan)
    (now : ℤ) : Except PyErr Unit × Plan :=
  if results.isEmpty then
    (.error (.valueError "No valid collection windows in results"), plan)
  else
    match scoreOracleWindows results with
    | .error e => (.error e, plan)
    | .ok scored =>
      let validated := scored.filter (fun p => decide ((6 : ℚ)/10 ≤ p.2))
      match optimizeTimeWindows (validated.map (fun p => p.1.start))
          plan.optimizationParameters none with
      | .error e => (.error e, plan)
      | .ok optimized =>
        let final := mergeOverlappingWindows optimized
        match addAllRun plan (final.map toCWindow) now with
        | (.error e, p1) => (.error e, p1)
        | (.ok _, p1) =>
          match calcPlanConfidence final with
          | .error e => (.error e, p1)
          | .ok conf =>
            let p2 := { p1 with confidenceScore := conf }
            match updateStatus p2 "OPTIMIZED" now with
            | .ok p3 => (.ok (), p3)
            | .error e => (.error e, p2)

/-- The `except` clause of `optimize_collection_plan`: transition the plan
to FAILED and re-raise the original error unmodified; if that transition
itself raises, the new exception propagates instead. -/
def failPath (p : Plan) (e : PyErr) (now : ℤ) : Except PyErr Plan × Plan :=
  match updateStatus p "FAILED" now with
  | .ok p' => (.error e, p')
  | .error e2 => (.error e2, p)

/-- One (undecorated) attempt of `optimize_collection_plan`, from the
PROCESSING transition through the poll loop to result processing.  The
cache lookup, the concurrency lock, the submission call and the metric
updates are omitted: they do not affect the polled statuses or the
result-validation logic.  The surrounding `@retry(stop_after_attempt(3))`
decorator is the `retryCall` combinator. -/
def optimizeOnce (plan : Plan) (poll : ℕ → PollResp) (now : ℤ) :
    Except PyErr Plan × Plan :=
  match updateStatus plan "PROCESSING" now with
  | .error e => failPath plan e now
  | .ok p1 =>
    match pollLoop poll with
    | .error e => failPath p1 e now
    | .ok none => failPath p1 (.runtimeError "Optimization timed out") now
    | .ok (some results) =>
      match processOptimizationResultsRun results p1 now with
      | (.ok _, p2) => (.ok p2, p2)
      | (.error e, p2) => failPath p2 e now

/-- A poll stream that never completes and never fails leaves the loop
without a result. -/
theorem pollLoopAux_none (poll : ℕ → PollResp)
    (h : ∀ i, 2 * i < 300 →
      (poll i).pollStatus ≠ "COMPLETED" ∧ (poll i).pollStatus ≠ "FAILED") :
    ∀ fuel i, pollLoopAux poll fuel i = .ok none := by
  intro fuel
  induction fuel with
  | zero => intro i; rfl
  | succ f ih =>
    intro i
    unfold pollLoopAux
    by_cases hi : 2 * i < 300
    · rw [if_pos hi, if_neg (h i hi).1, if_neg (h i hi).2]
      exact ih (i + 1)
    · rw [if_neg hi]

/-- An immediately COMPLETED poll returns its results on the first
iteration. -/
theorem pollLoop_completed (poll : ℕ → PollResp)
    (h : (poll 0).pollStatus = "COMPLETED") :
    pollLoop poll = .ok (some (poll 0).pollResults) := by
  show pollLoopAux poll (149 + 1) 0 = _
  unfold pollLoopAux
  rw [if_pos (by norm_num), if_pos h]

/-- A DRAFT plan used as the orchestration scenarios' starting point. -/
def draftPlan : Plan :=
  { status := "DRAFT", startTime := 0, endTime := 86400, confidenceScore := 0,
    collectionWindows := [], optimizationParameters := ⟨none, none⟩, updatedAt := 0 }

/-- A poll stream that always reports PROCESSING. -/
def pollProcessing : ℕ → PollResp := fun _ => ⟨"PROCESSING", none, []⟩

/-- Does a result carry Python's builtin `TimeoutError` class? -/
def resultIsTimeoutClass (r : Except PyErr Plan) : Bool :=
  match r with
  | .error (.timeoutError _) => true
  | _ => false

/-- C4 (amended): for every optimize attempt starting from a DRAFT plan
whose polls, within the 300-second deadline, report neither COMPLETED nor
FAILED, the attempt fails with `RuntimeError("Optimization timed out")` —
not with Python's distinct builtin `TimeoutError` — and leaves
`plan.status == "FAILED"`; exiting the poll loop without a COMPLETED
result is always this timeout failure, never a silent same-attempt
retry. -/
theorem optimizeOnce_timeout (plan : Plan) (poll : ℕ → PollResp) (now : ℤ)
    (hst : plan.status = "DRAFT")
    (h : ∀ i, 2 * i < 300 →
      (poll i).pollStatus ≠ "COMPLETED" ∧ (poll i).pollStatus ≠ "FAILED") :
    (optimizeOnce plan poll now).1 = .error (.runtimeError "Optimization timed out")
    ∧ ((optimizeOnce plan poll now).2).status = "FAILED" := by
  have hp : pollLoop poll = .ok none := pollLoopAux_none poll h 150 0
  have h1 : updateStatus plan "PROCESSING" now =
      .ok { plan with status := "PROCESSING", updatedAt := now } := by
    simp +decide [updateStatus, validTransitions, planStatusTypes, hst]
  have h2 : updateStatus { plan with status := "PROCESSING", updatedAt := now }
      "FAILED" now = .ok { plan with status := "FAILED", updatedAt := now } := by
    simp +decide [updateStatus, validTransitions, planStatusTypes]
  constructor
  · simp [optimizeOnce, h1, hp, failPath, h2]
  · simp [optimizeOnce, h1, hp, failPath, h2]

/-- Witness for `optimizeOnce_timeout` at the concrete DRAFT plan and the
always-PROCESSING poll stream. -/
theorem optimizeOnce_timeout_witness :
    (optimizeOnce draftPlan pollProcessing 7).1 =
      .error (.runtimeError "Optimization timed out")
    ∧ ((optimizeOnce draftPlan pollProcessing 7).2).status = "FAILED" :=
  optimizeOnce_timeout draftPlan pollProcessing 7 rfl
    (fun i _ => ⟨by simp +decide [pollProcessing], by simp +decide [pollProcessing]⟩)

/-- C4 (counterexample): with polls that stay PROCESSING for the whole
300-second window, the attempt raises `RuntimeError` — the exception is
not of Python's builtin `TimeoutError` class the claim names — while the
plan does end FAILED. -/
theorem optimizeOnce_timeout_cex :
    (optimizeOnce draftPlan pollProcessing 7).1 =
      .error (.runtimeError "Optimization timed out")
    ∧ resultIsTimeoutClass ((optimizeOnce draftPlan pollProcessing 7).1) = false
    ∧ ((optimizeOnce draftPlan pollProcessing 7).2).status = "FAILED" := by
  have hp : pollLoop pollProcessing = .ok none :=
    pollLoopAux_none pollProcessing
      (fun i _ => ⟨by simp +decide [pollProcessing], by simp +decide [pollProcessing]⟩) 150 0
  have h1 : updateStatus draftPlan "PROCESSING" 7 =
      .ok { draftPlan with status := "PROCESSING", updatedAt := 7 } := by
    simp +decide [updateStatus, validTransitions, planStatusTypes, draftPlan]
  have h2 : updateStatus { draftPlan with status := "PROCESSING", updatedAt := 7 }
      "FAILED" 7 = .ok { draftPlan with status := "FAILED", updatedAt := 7 } := by
    simp +decide [updateStatus, validTransitions, planStatusTypes, draftPlan]
  refine ⟨?_, ?_, ?_⟩ <;>
    simp [optimizeOnce, h1, hp, failPath, h2, resultIsTimeoutClass]

/-- The single oracle window of the spec's one-window scenario: dimension
scores (0.9, 0.8, 0.7, 0.9). -/
def c3Window : OracleWindow := ⟨0, 3600, 9/10, 8/10, 7/10, 9/10⟩

/-- A poll stream completing immediately with the single-window result. -/
def pollC3 : ℕ → PollResp := fun _ => ⟨"COMPLETED", none, [c3Window]⟩

theorem c3Window_score :
    calculateConfidenceScore (windowConfidenceParams c3Window) none = .ok (83/100) := by
  norm_num +decide [c3Window, windowConfidenceParams, calculateConfidenceScore,
    calculateConfidenceScoreRaw, handleCalculationErrors, weightedScore, lookupQ,
    requiredParams, defaultWeights, npIsClose, snapClip, clip01, abs_le]

theorem optimizeTimeWindows_single_start :
    optimizeTimeWindows [0] (⟨none, none⟩ : Constraints) none =
      .error (.valueError "Time span must be at least 300 seconds") := by
  norm_num +decide [optimizeTimeWindows, sortStable, insertStable,
    List.getLastD, List.headD]

theorem processResults_single_window_eval (p : Plan) (now : ℤ)
    (hc : p.optimizationParameters = ⟨none, none⟩) :
    processOptimizationResultsRun [c3Window] p now =
      (.error (.valueError "Time span must be at least 300 seconds"), p) := by
  have hsw : scoreOracleWindows [c3Window] = .ok [(c3Window, 83/100)] := by
    simp [scoreOracleWindows, c3Window_score]
  have hfil : List.filter (fun q => decide ((6 : ℚ)/10 ≤ q.2))
      [(c3Window, (83 : ℚ)/100)] = [(c3Window, (83 : ℚ)/100)] := by
    norm_num [List.filter]
  simp [processOptimizationResultsRun, hsw, hfil, hc,
    show c3Window.start = 0 from rfl, optimizeTimeWindows_single_start]

/-- C3 (counterexample): with default weights, the window with dimension
scores (0.9, 0.8, 0.7, 0.9) gets confidence 0.83 — not the claimed 0.85 —
and the optimize cycle on a COMPLETED single-window result does not end
OPTIMIZED: result processing reapplies `optimize_time_windows` to the one
start time, whose 300-second span check raises, so the attempt fails and
the plan ends FAILED with no windows. -/
theorem optimizeOnce_c3_cex :
    calculateConfidenceScore (windowConfidenceParams c3Window) none = .ok (83/100)
    ∧ (83/100 : ℚ) ≠ 85/100
    ∧ (optimizeOnce draftPlan pollC3 7).1 =
        .error (.valueError "Time span must be at least 300 seconds")
    ∧ ((optimizeOnce draftPlan pollC3 7).2).status = "FAILED"
    ∧ ((optimizeOnce draftPlan pollC3 7).2).collectionWindows = [] := by
  have h1 : updateStatus draftPlan "PROCESSING" 7 =
      .ok { draftPlan with status := "PROCESSING", updatedAt := 7 } := by
    simp +decide [updateStatus, validTransitions, planStatusTypes, draftPlan]
  have hpoll : pollLoop pollC3 = .ok (some [c3Window]) := by
    simpa [pollC3] using pollLoop_completed pollC3 rfl
  have hproc := processResults_single_window_eval
    { draftPlan with status := "PROCESSING", updatedAt := 7 } 7 (by simp [draftPlan])
  have h2 : updateStatus { draftPlan with status := "PROCESSING", updatedAt := 7 }
      "FAILED" 7 = .ok { draftPlan with status := "FAILED", updatedAt := 7 } := by
    simp +decide [updateStatus, validTransitions, planStatusTypes, draftPlan]
  have hfull : optimizeOnce draftPlan pollC3 7 =
      (.error (.valueError "Time span must be at least 300 seconds"),
       { draftPlan with status := "FAILED", updatedAt := 7 }) := by
    simp [optimizeOnce, h1, hpoll, hproc, failPath, h2]
  refine ⟨c3Window_score, by norm_num, ?_, ?_, ?_⟩ <;> first
  | rfl
  | (rw [hfull]; try rfl)

/-- C3 (amended): the single-window scenario computes confidence
0.83 = 0.4·0.9 + 0.3·0.8 + 0.2·0.7 + 0.1·0.9, which passes the 0.6
filter; but because `process_optimization_results` reapplies
`optimize_time_windows` to the validated windows' start times, the single
start time fails the 300-second span check, the attempt raises
`ValueError("Time span must be at least 300 seconds")` and the plan ends
FAILED holding no collection windows. -/
theorem optimizeOnce_c3_amended :
    calculateConfidenceScore (windowConfidenceParams c3Window) none = .ok (83/100)
    ∧ (6 : ℚ)/10 ≤ 83/100
    ∧ (optimizeOnce draftPlan pollC3 11).1 =
        .error (.valueError "Time span must be at least 300 seconds")
    ∧ ((optimizeOnce draftPlan pollC3 11).2).status = "FAILED"
    ∧ ((optimizeOnce draftPlan pollC3 11).2).collectionWindows = [] := by
  have h1 : updateStatus draftPlan "PROCESSING" 11 =
      .ok { draftPlan with status := "PROCESSING", updatedAt := 11 } := by
    simp +decide [updateStatus, validTransitions, planStatusTypes, draftPlan]
  have hpoll : pollLoop pollC3 = .ok (some [c3Window]) := by
    simpa [pollC3] using pollLoop_completed pollC3 rfl
  have hproc := processResults_single_window_eval
    { draftPlan with status := "PROCESSING", updatedAt := 11 } 11 (by simp [draftPlan])
  have h2 : updateStatus { draftPlan with status := "PROCESSING", updatedAt := 11 }
      "FAILED" 11 = .ok { draftPlan with status := "FAILED", updatedAt := 11 } := by
    simp +decide [updateStatus, validTransitions, planStatusTypes, draftPlan]
  have hfull : optimizeOnce draftPlan pollC3 11 =
      (.error (.valueError "Time span must be at least 300 seconds"),
       { draftPlan with status := "FAILED", updatedAt := 11 }) := by
    simp [optimizeOnce, h1, hpoll, hproc, failPath, h2]
  refine ⟨c3Window_score, by norm_num, ?_, ?_, ?_⟩ <;> first
  | rfl
  | (rw [hfull]; try rfl)

/-- C2: a COMPLETED result with no windows does fail with the
"no valid collection windows" `ValueError` (first conjunct), but on a
non-empty result the orchestrator does not hand the filtered windows to
the merger — it first reapplies `optimize_time_windows` to their start
times.  On the repository's own single-window test input that
reapplication raises `ValueError("Time span must be at least 300
seconds")` (second conjunct), so the step the claim describes (merger
directly on the filtered set, no optimizer reapplication) is unreachable
and the test suite's expected OPTIMIZED outcome is impossible. -/
theorem processResults_reapplies_optimizer :
    processOptimizationResultsRun [] draftPlan 7 =
      (.error (.valueError "No valid collection windows in results"), draftPlan)
    ∧ processOptimizationResultsRun [c3Window]
        { draftPlan with status := "PROCESSING" } 7 =
      (.error (.valueError "Time span must be at least 300 seconds"),
       { draftPlan with status := "PROCESSING" }) := by
  constructor
  · simp [processOptimizationResultsRun]
  · exact processResults_single_window_eval _ 7 (by simp [draftPlan])
